import Mathlib

/-!
Verification of the MeruCountyWeb league core against its specification.

The two procedures under study are the Standings Calculator
(`TeamStandingsManager.get_standings` in `models.py`) and the Fixture
Generator (the management command in `generate_fixtures.py`).  Both are
embedded below as pure Lean functions:

* teams are values of an arbitrary type `α` with decidable equality
  (Django model instances compare by primary key);
* `datetime` values are modelled as integers (days); the start instant is
  an abstract parameter `start : Int` and the inter-round interval is the
  literal 7 used by the source;
* the database is a pair of lists (`LeagueDB`), and persistence is an
  abstract save function `MatchRec α → Except String Unit` that can fail,
  mirroring `match.save()` raising an exception.
-/

namespace MeruCounty

/-- Embedding of the `Match` model fields used by the two procedures
(`models.py`, class `Match`): home/away team, date, the two integer
scores (Django `IntegerField`, default 0) and the played flag. -/
structure MatchRec (α : Type) where
  home_team : α
  away_team : α
  match_date : Int
  home_score : Int
  away_score : Int
  is_played : Bool
deriving DecidableEq, Repr

/-- Embedding of `Match.save` (`models.py` lines 102-107): before the row
is written, `is_played` is recomputed as "some score is positive",
overwriting whatever value it held. The record returned is the state
persisted by `super().save()`. -/
def matchSave {α : Type} (m : MatchRec α) : MatchRec α :=
  if 0 < m.home_score ∨ 0 < m.away_score then
    { m with is_played := true }
  else
    { m with is_played := false }

/-- One standings row (`stats` dict in `TeamStandingsManager.get_standings`).
All counters are Python ints, embedded as `Int`. -/
structure TeamStats (α : Type) where
  team : α
  P : Int
  W : Int
  D : Int
  L : Int
  GF : Int
  GA : Int
  GD : Int
  Pts : Int
deriving DecidableEq, Repr

/-- The matchList a team appears in that are flagged played: the union
`played_home | played_away` of the two filtered querysets in
`get_standings`, which is the single predicate
"is_played and (home_team = t or away_team = t)". -/
def playedMatchesOf {α : Type} [DecidableEq α] (t : α) (matchList : List (MatchRec α)) :
    List (MatchRec α) :=
  matchList.filter (fun m => m.is_played && (m.home_team == t || m.away_team == t))

/-- The per-team accumulation loop of `get_standings` (`models.py` lines
16-34): `P` is the count of played matchList, then one pass orients
goals-for/against from the team's perspective and accumulates
win/draw/loss and points; `GD` is computed once at the end. -/
def teamStats {α : Type} [DecidableEq α] (t : α) (matchList : List (MatchRec α)) :
    TeamStats α :=
  let all_played := playedMatchesOf t matchList
  let init : TeamStats α :=
    { team := t, P := all_played.length, W := 0, D := 0, L := 0,
      GF := 0, GA := 0, GD := 0, Pts := 0 }
  let s := all_played.foldl (fun s m =>
    let gf : Int := if m.home_team == t then m.home_score else m.away_score
    let ga : Int := if m.home_team == t then m.away_score else m.home_score
    let s := { s with GF := s.GF + gf, GA := s.GA + ga }
    if ga < gf then { s with W := s.W + 1, Pts := s.Pts + 3 }
    else if gf == ga then { s with D := s.D + 1, Pts := s.Pts + 1 }
    else { s with L := s.L + 1 }) init
  { s with GD := s.GF - s.GA }

/-- The sort key `lambda x: (x[Pts], x[GD], x[GF])` of `get_standings`. -/
def statsKey {α : Type} (s : TeamStats α) : Int × Int × Int :=
  (s.Pts, s.GD, s.GF)

/-- Lexicographic "greater or equal" on Python's 3-tuples of ints. -/
def tupleGe : Int × Int × Int → Int × Int × Int → Bool
  | (a1, a2, a3), (b1, b2, b3) =>
    if b1 < a1 then true
    else if a1 < b1 then false
    else if b2 < a2 then true
    else if a2 < b2 then false
    else decide (b3 ≤ a3)

/-- The comparison realised by `standings.sort(key=..., reverse=True)`:
row `a` may precede row `b` exactly when its key is lexicographically
greater or equal. -/
def standingsLE {α : Type} (a b : TeamStats α) : Bool :=
  tupleGe (statsKey a) (statsKey b)

/-- Embedding of `TeamStandingsManager.get_standings` (`models.py` lines
9-39): build one row per team, in the order the team sequence arrives,
then sort descending by (Pts, GD, GF).  Python's `list.sort` is a stable
sort; with `reverse=True` rows with equal keys keep their input order, so
it is embedded as a stable merge sort under `standingsLE`. -/
def get_standings {α : Type} [DecidableEq α] (teams : List α)
    (matchList : List (MatchRec α)) : List (TeamStats α) :=
  (teams.map (fun t => teamStats t matchList)).mergeSort standingsLE

/-- The backing store seen by the standings manager. -/
structure LeagueDB (α : Type) where
  teams : List α
  matchList : List (MatchRec α)

/-- Running the standings query against the store.  The manager only
issues read queries (two `filter` calls per team), so the store comes
back unchanged next to the computed rows. -/
def runGetStandings {α : Type} [DecidableEq α] (db : LeagueDB α) :
    LeagueDB α × List (TeamStats α) :=
  (db, get_standings db.teams db.matchList)

/-! ### Fixture generator (`generate_fixtures.py`) -/

/-- Lines 37-40: if the team count is odd, append a `None` placeholder
("bye") so the working list has even length. -/
def padSeats {α : Type} (teams : List α) : List (Option α) :=
  if teams.length % 2 ≠ 0 then teams.map some ++ [none] else teams.map some

/-- Lines 61-65: one round pairs seat `i` with seat `i + half_size` for
`i` in `range(half_size)`, where `half_size = num_teams // 2`. -/
def roundPairs {α : Type} (seats : List (Option α)) :
    List (Option α × Option α) :=
  let half := seats.length / 2
  (List.range half).map (fun i => (seats.getD i none, seats.getD (i + half) none))

/-- Lines 63-76: the matchList emitted for one round — a pairing produces a
match only when both seats hold real teams (`if team1 and team2`), with
the first seat of the pair as the home side, dated at the round's date,
scores left at their default 0 and `is_played=False`. -/
def roundMatches {α : Type} (seats : List (Option α)) (d : Int) :
    List (MatchRec α) :=
  (roundPairs seats).filterMap (fun p =>
    match p with
    | (some t1, some t2) => some ⟨t1, t2, d, 0, 0, false⟩
    | _ => none)

/-- Line 78, `teams.insert(1, teams.pop())`: remove the last seat and
re-insert it at position 1, leaving the first seat fixed. -/
def rotateSeats {β : Type} : List β → List β
  | [] => []
  | x :: xs =>
    match xs.reverse with
    | [] => [x]
    | lastSeat :: restRev => x :: lastSeat :: restRev.reverse

/-- Lines 53-78, the phase-1 loop: rounds are produced in order; round 0
is dated at the start instant and each later round 7 days after the
previous one; the seat list is rotated between rounds. -/
def leg1Rounds {α : Type} (seats : List (Option α)) (d : Int) :
    Nat → List (List (MatchRec α))
  | 0 => []
  | n + 1 => roundMatches seats d :: leg1Rounds (rotateSeats seats) (d + 7) n

/-- All first-leg matchList in generation order (`total_rounds` is
`num_teams - 1` on the padded list, line 43). -/
def leg1 {α : Type} (teams : List α) (start : Int) : List (MatchRec α) :=
  let seats := padSeats teams
  (leg1Rounds seats start (seats.length - 1)).flatten

/-- Lines 86-96, phase 2: one return fixture per first-leg match, home
and away swapped, dated at that match's own date plus
`total_rounds * days_between_weeks` days. -/
def leg2 {α : Type} (l1 : List (MatchRec α)) (totalRounds : Nat) :
    List (MatchRec α) :=
  l1.map (fun m =>
    ⟨m.away_team, m.home_team, m.match_date + 7 * (totalRounds : Int), 0, 0, false⟩)

/-- Lines 33-96: the full generated list, leg 1 followed by leg 2; line
84 guards phase 2 with `if num_actual_teams > 2`, so two teams get no
return leg. -/
def generateAll {α : Type} (teams : List α) (start : Int) : List (MatchRec α) :=
  let seats := padSeats teams
  let totalRounds := seats.length - 1
  let l1 := (leg1Rounds seats start totalRounds).flatten
  if teams.length > 2 then l1 ++ leg2 l1 totalRounds else l1

/-- The progress line written every tenth successful save (line 110). -/
def progressLine (c total : Nat) : String :=
  "Progress: " ++ toString c ++ "/" ++ toString total ++ " saved."

/-- The line written by the `except` branch (line 112): it carries only
the exception text. -/
def errorLine (e : String) : String :=
  "CRITICAL SAVE ERROR: " ++ e

/-- Lines 104-114, the save loop: matchList are saved one at a time in
generation order; each successful `match.save()` persists the record with
`is_played` recomputed (`matchSave`); the first raised exception stops
the loop, emits the error line and surfaces the exception; no earlier
save is undone.  Returns (persisted records, output lines, error). -/
def saveLoopAux {α : Type} (saveFn : MatchRec α → Except String Unit)
    (total : Nat) : List (MatchRec α) → Nat →
    List (MatchRec α) × List String × Option String
  | [], _ => ([], [], none)
  | m :: ms, count =>
    match saveFn m with
    | Except.ok _ =>
      let c := count + 1
      let rest := saveLoopAux saveFn total ms c
      (matchSave m :: rest.1,
       (if c % 10 == 0 then [progressLine c total] else []) ++ rest.2.1,
       rest.2.2)
    | Except.error e => ([], [errorLine e], some e)

/-- The save loop started on a fresh counter with `total` the number of
generated matchList (lines 101-104). -/
def saveLoop {α : Type} (saveFn : MatchRec α → Except String Unit)
    (ms : List (MatchRec α)) :
    List (MatchRec α) × List String × Option String :=
  saveLoopAux saveFn ms.length ms 0

/-- The two failure modes of the command: the `CommandError` raised for
fewer than two teams (line 31) and a storage error caught in the save
loop (line 111). -/
inductive RunError where
  | cmdError (msg : String)
  | saveError (msg : String)
deriving DecidableEq, Repr

/-- The `CommandError` message of line 31. -/
def tooFewMsg : String := "Need at least 2 teams to generate a schedule."

/-- Lines 27-114, `Command.handle` end to end: reject fewer than two
teams before anything is generated or saved, otherwise generate both legs
and run the save loop.  Returns (persisted records, output lines of the
save loop, error). -/
def handleRun {α : Type} (teams : List α) (start : Int)
    (saveFn : MatchRec α → Except String Unit) :
    List (MatchRec α) × List String × Option RunError :=
  if teams.length < 2 then ([], [], some (RunError.cmdError tooFewMsg))
  else
    let r := saveLoop saveFn (generateAll teams start)
    (r.1, r.2.1, r.2.2.map RunError.saveError)

/-- Modelled from the spec: the pairing rule as the specification words
it — "pair seat i with seat (N'−1−i) for i in [0, N'/2)" — kept separate
from `roundPairs`, which embeds what the source does, so the two can be
compared. -/
def specRoundPairs {α : Type} (seats : List (Option α)) :
    List (Option α × Option α) :=
  let n := seats.length
  (List.range (n / 2)).map (fun i => (seats.getD i none, seats.getD (n - 1 - i) none))

/-- The key comparison is reflexive. -/
theorem tupleGe_refl (a : Int × Int × Int) : tupleGe a a = true := by
  obtain ⟨a1, a2, a3⟩ := a
  simp [tupleGe]

/-- Membership characterisation of the key comparison. -/
theorem tupleGe_iff (a b : Int × Int × Int) :
    tupleGe a b = true ↔
      b.1 < a.1 ∨ (a.1 = b.1 ∧ (b.2.1 < a.2.1 ∨ (a.2.1 = b.2.1 ∧ b.2.2 ≤ a.2.2))) := by
  obtain ⟨a1, a2, a3⟩ := a
  obtain ⟨b1, b2, b3⟩ := b
  simp only [tupleGe]
  split_ifs <;> simp <;> omega

/-- The key comparison is transitive. -/
theorem tupleGe_trans (a b c : Int × Int × Int) (h1 : tupleGe a b = true)
    (h2 : tupleGe b c = true) : tupleGe a c = true := by
  obtain ⟨a1, a2, a3⟩ := a
  obtain ⟨b1, b2, b3⟩ := b
  obtain ⟨c1, c2, c3⟩ := c
  rw [tupleGe_iff] at h1 h2 ⊢
  simp only at h1 h2 ⊢
  omega

/-- The key comparison is total. -/
theorem tupleGe_total (a b : Int × Int × Int) : tupleGe a b || tupleGe b a := by
  obtain ⟨a1, a2, a3⟩ := a
  obtain ⟨b1, b2, b3⟩ := b
  rw [Bool.or_eq_true, tupleGe_iff, tupleGe_iff]
  simp only
  omega

/-- The row comparison inherits transitivity from the key comparison. -/
theorem standingsLE_trans {α : Type} (a b c : TeamStats α)
    (h1 : standingsLE a b) (h2 : standingsLE b c) : standingsLE a c :=
  tupleGe_trans _ _ _ h1 h2

/-- The row comparison inherits totality from the key comparison. -/
theorem standingsLE_total {α : Type} (a b : TeamStats α) :
    standingsLE a b || standingsLE b a :=
  tupleGe_total _ _

end MeruCounty

/-! ### Claims -/

namespace MeruCounty

/-- C1: for N=4 teams the generator produces exactly 12 matches, 6 in
leg 1 and 6 in leg 2; every ordered pair of distinct teams appears as
(home, away) in exactly one match — hence every unordered pair appears
exactly twice with home and away swapped — and, when every save succeeds,
all 12 matches are persisted as records with is_played = false. -/
theorem c1_fixture_count_n4 :
    (generateAll [0, 1, 2, 3] (0 : Int)).length = 12
    ∧ (leg1 [0, 1, 2, 3] (0 : Int)).length = 6
    ∧ (leg2 (leg1 [0, 1, 2, 3] (0 : Int)) 3).length = 6
    ∧ generateAll [0, 1, 2, 3] (0 : Int)
        = leg1 [0, 1, 2, 3] (0 : Int) ++ leg2 (leg1 [0, 1, 2, 3] (0 : Int)) 3
    ∧ (∀ a ∈ [0, 1, 2, 3], ∀ b ∈ [0, 1, 2, 3], a ≠ b →
        ((generateAll [0, 1, 2, 3] (0 : Int)).filter
          (fun m => m.home_team == a && m.away_team == b)).length = 1)
    ∧ (∀ m ∈ generateAll [0, 1, 2, 3] (0 : Int), m.is_played = false)
    ∧ (handleRun [0, 1, 2, 3] (0 : Int) (fun _ => Except.ok ())).1.length = 12
    ∧ (∀ m ∈ (handleRun [0, 1, 2, 3] (0 : Int) (fun _ => Except.ok ())).1,
        m.is_played = false)
    ∧ (handleRun [0, 1, 2, 3] (0 : Int) (fun _ => Except.ok ())).2.2 = none := by
  decide

/-- C3: after every save of a match, is_played holds exactly when one of
the two scores is positive, whatever value is_played had before the
save. -/
theorem c3_is_played_iff {α : Type} (m : MatchRec α) (b : Bool) :
    ((matchSave m).is_played = true ↔ 0 < m.home_score ∨ 0 < m.away_score)
    ∧ matchSave { m with is_played := b } = matchSave m := by
  refine ⟨?_, ?_⟩ <;>
    by_cases h : 0 < m.home_score ∨ 0 < m.away_score <;>
      simp [matchSave, h]

/-- C4 counterexample: the claim dates the three leg-1 rounds at start,
start+7d and start+3·7d.  On the code, with start = 0, the third leg-1
round (index 2) for four teams carries date 14 = start+2·7d, not
21 = start+3·7d. -/
theorem c4_counterexample :
    ((leg1Rounds (padSeats [0, 1, 2, 3]) (0 : Int) 3).getD 2 []).map
        (fun m => m.match_date) = [14, 14]
    ∧ ¬ ((leg1Rounds (padSeats [0, 1, 2, 3]) (0 : Int) 3).getD 2 []).map
        (fun m => m.match_date) = [21, 21] := by
  decide

/-- C5 counterexample: the claim states that every round pairs seat i
with seat (N'−1−i).  On four seats the code pairs seat 0 with seat 2 and
seat 1 with seat 3 (seat i with seat i+N'/2), which differs from the
claimed pairing (seat 0 with seat 3, seat 1 with seat 2). -/
theorem c5_counterexample :
    roundPairs ([some 0, some 1, some 2, some 3] : List (Option Nat))
      = [(some 0, some 2), (some 1, some 3)]
    ∧ specRoundPairs ([some 0, some 1, some 2, some 3] : List (Option Nat))
      = [(some 0, some 3), (some 1, some 2)]
    ∧ roundPairs ([some 0, some 1, some 2, some 3] : List (Option Nat))
      ≠ specRoundPairs ([some 0, some 1, some 2, some 3] : List (Option Nat)) := by
  decide

/-- C6 counterexample: the claim states that with exactly two teams leg 2
is still generated, so the pair gets a reverse fixture.  On the code the
whole output for two teams is the single leg-1 match, and no generated
match has the home/away sides swapped. -/
theorem c6_counterexample :
    generateAll [0, 1] (0 : Int) = [⟨0, 1, 0, 0, 0, false⟩]
    ∧ ¬ ∃ m ∈ generateAll [0, 1] (0 : Int),
        m.home_team = 1 ∧ m.away_team = 0 := by
  decide

/-- C6 amended: for exactly two teams the generator skips leg 2 (the
source guards it with num_actual_teams > 2), so the output is the single
leg-1 match, with the first team at home, dated at the start instant, and
no reverse fixture exists. -/
theorem c6_no_second_leg_n2 {α : Type} [DecidableEq α] (a b : α) (s : Int) :
    generateAll [a, b] s = [⟨a, b, s, 0, 0, false⟩] := by
  simp [generateAll, padSeats, leg1Rounds, roundMatches, roundPairs,
    rotateSeats, leg2, List.range_succ]

/-- C7: for five teams a bye placeholder is appended giving a working
list of six seats; each of the five leg-1 rounds yields exactly two real
matches (the pairing touching the bye yields none), and leg 1 has
10 = 5·4/2 matches in total. -/
theorem c7_bye_handling :
    padSeats [0, 1, 2, 3, 4] = [some 0, some 1, some 2, some 3, some 4, none]
    ∧ (padSeats [0, 1, 2, 3, 4]).length = 6
    ∧ (leg1Rounds (padSeats [0, 1, 2, 3, 4]) (0 : Int) 5).length = 5
    ∧ (∀ r ∈ leg1Rounds (padSeats [0, 1, 2, 3, 4]) (0 : Int) 5, r.length = 2)
    ∧ (∀ r ∈ leg1Rounds (padSeats [0, 1, 2, 3, 4]) (0 : Int) 5,
        (roundPairs (padSeats [0, 1, 2, 3, 4])).length = 3)
    ∧ (leg1 [0, 1, 2, 3, 4] (0 : Int)).length = 10 := by
  decide

/-- C9: with fewer than two teams the command run fails with the
configuration error of line 31 and persists nothing: no match record is
saved before the failure is raised. -/
theorem c9_min_input {α : Type} [DecidableEq α] (teams : List α) (s : Int)
    (saveFn : MatchRec α → Except String Unit) (h : teams.length < 2) :
    handleRun teams s saveFn = ([], [], some (RunError.cmdError tooFewMsg)) := by
  unfold handleRun
  simp [h]

/-- Witness for C9 at the concrete inputs N = 0 and N = 1. -/
theorem c9_min_input_witness :
    handleRun ([] : List Nat) 0 (fun _ => Except.ok ())
        = ([], [], some (RunError.cmdError tooFewMsg))
    ∧ handleRun [7] 0 (fun _ => Except.ok ())
        = ([], [], some (RunError.cmdError tooFewMsg)) :=
  ⟨c9_min_input [] 0 (fun _ => Except.ok ()) (by decide),
   c9_min_input [7] 0 (fun _ => Except.ok ()) (by decide)⟩

/-- C10 counterexample: the claim states the failure is reported together
with the count of matches saved before the failure.  On the code the
whole failure report is the single line built from the exception text
alone: two runs that save different numbers of matches (2 and 4) before
the same exception produce byte-identical output, so the report cannot
carry the count. -/
theorem c10_counterexample :
    (saveLoop (fun m => if m.home_team == 99 then Except.error "disk full"
        else Except.ok ())
      ([⟨1, 2, 0, 0, 0, false⟩, ⟨2, 1, 0, 0, 0, false⟩,
        ⟨99, 1, 0, 0, 0, false⟩] : List (MatchRec Nat))).2.1
      = ["CRITICAL SAVE ERROR: disk full"]
    ∧ (saveLoop (fun m => if m.home_team == 99 then Except.error "disk full"
        else Except.ok ())
      ([⟨1, 2, 0, 0, 0, false⟩, ⟨2, 1, 0, 0, 0, false⟩, ⟨1, 3, 0, 0, 0, false⟩,
        ⟨3, 1, 0, 0, 0, false⟩, ⟨99, 1, 0, 0, 0, false⟩] : List (MatchRec Nat))).2.1
      = ["CRITICAL SAVE ERROR: disk full"]
    ∧ (saveLoop (fun m => if m.home_team == 99 then Except.error "disk full"
        else Except.ok ())
      ([⟨1, 2, 0, 0, 0, false⟩, ⟨2, 1, 0, 0, 0, false⟩,
        ⟨99, 1, 0, 0, 0, false⟩] : List (MatchRec Nat))).1.length = 2
    ∧ (saveLoop (fun m => if m.home_team == 99 then Except.error "disk full"
        else Except.ok ())
      ([⟨1, 2, 0, 0, 0, false⟩, ⟨2, 1, 0, 0, 0, false⟩, ⟨1, 3, 0, 0, 0, false⟩,
        ⟨3, 1, 0, 0, 0, false⟩, ⟨99, 1, 0, 0, 0, false⟩] : List (MatchRec Nat))).1.length = 4
    ∧ (2 : Nat) ≠ 4 := by
  decide


/-- C2: the standings come back sorted descending by the lexicographic
key (Pts, GD, GF) — every earlier row compares greater-or-equal to every
later one — and the sort is stable: for every key value, the rows
carrying that key appear in exactly the order in which their teams
arrived in the input sequence (the unsorted row list is built one row per
team in input order). -/
theorem c2_standings_sorted_stable {α : Type} [DecidableEq α]
    (teams : List α) (matchList : List (MatchRec α)) :
    (get_standings teams matchList).Pairwise
        (fun a b => standingsLE a b = true)
    ∧ ∀ k : Int × Int × Int,
        (get_standings teams matchList).filter (fun s => statsKey s == k)
          = (teams.map (fun t => teamStats t matchList)).filter
              (fun s => statsKey s == k) := by
  constructor
  · exact List.sorted_mergeSort
      (fun a b c => standingsLE_trans a b c)
      (fun a b => standingsLE_total a b)
      (teams.map (fun t => teamStats t matchList))
  · intro k
    unfold get_standings
    set l := teams.map (fun t => teamStats t matchList) with hl
    set p : TeamStats α → Bool := fun s => statsKey s == k with hp
    have hpair : (l.filter p).Pairwise (fun a b => standingsLE a b = true) := by
      apply List.pairwise_of_forall_mem_list
      intro x hx y hy
      have hxk : statsKey x = k := by
        have := (List.mem_filter.mp hx).2
        simpa [hp] using this
      have hyk : statsKey y = k := by
        have := (List.mem_filter.mp hy).2
        simpa [hp] using this
      unfold standingsLE
      rw [hxk, hyk]
      exact tupleGe_refl k
    have hsl : List.Sublist (l.filter p) (l.mergeSort standingsLE) :=
      List.sublist_mergeSort
        (fun a b c => standingsLE_trans a b c)
        (fun a b => standingsLE_total a b)
        hpair (List.filter_sublist l)
    have h2 : List.Sublist (l.filter p) ((l.mergeSort standingsLE).filter p) := by
      have h3 := hsl.filter p
      rwa [List.filter_eq_self.mpr
        (fun a ha => (List.mem_filter.mp ha).2)] at h3
    have hlen : ((l.mergeSort standingsLE).filter p).length
        = (l.filter p).length :=
      ((List.mergeSort_perm l standingsLE).filter p).length_eq
    exact (h2.eq_of_length hlen.symm).symm


/-- C8: when no match is flagged played, the standings hold exactly one
row per team, in team order, with every counter zero; an empty team set
yields an empty table; and the run leaves the store untouched (the
manager only reads).  The calculator is a total function, so no input
produces an error. -/
theorem c8_standings_zero {α : Type} [DecidableEq α] (teams : List α)
    (matchList : List (MatchRec α)) (db : LeagueDB α)
    (h : ∀ m ∈ matchList, m.is_played = false) :
    get_standings teams matchList
        = teams.map (fun t => ⟨t, 0, 0, 0, 0, 0, 0, 0, 0⟩)
    ∧ get_standings ([] : List α) matchList = []
    ∧ (runGetStandings db).1 = db := by
  have hfilter : ∀ t : α, playedMatchesOf t matchList = [] := by
    intro t
    apply List.filter_eq_nil_iff.mpr
    intro m hm
    simp [h m hm]
  have hstats : ∀ t : α, teamStats t matchList
      = (⟨t, 0, 0, 0, 0, 0, 0, 0, 0⟩ : TeamStats α) := by
    intro t
    unfold teamStats
    rw [hfilter t]
    simp
  refine ⟨?_, ?_, rfl⟩
  · unfold get_standings
    rw [List.map_congr_left (fun t _ => hstats t)]
    apply List.mergeSort_of_sorted
    apply List.pairwise_of_forall_mem_list
    intro x hx y hy
    have hxz : statsKey x = (0, 0, 0) := by
      obtain ⟨t, ht, rfl⟩ := List.mem_map.mp hx
      rfl
    have hyz : statsKey y = (0, 0, 0) := by
      obtain ⟨t, ht, rfl⟩ := List.mem_map.mp hy
      rfl
    show standingsLE x y = true
    unfold standingsLE
    rw [hxz, hyz]
    exact tupleGe_refl _
  · unfold get_standings
    simp

/-- Witness for C8: two teams, one unplayed match in store. -/
theorem c8_standings_zero_witness :
    (get_standings [5, 7] [⟨1, 2, 3, 0, 0, false⟩]
        = [5, 7].map (fun t => ⟨t, 0, 0, 0, 0, 0, 0, 0, 0⟩))
    ∧ get_standings ([] : List Nat) [⟨1, 2, 3, 0, 0, false⟩] = []
    ∧ (runGetStandings (LeagueDB.mk [5, 7] [⟨1, 2, 3, 0, 0, false⟩])).1
        = LeagueDB.mk [5, 7] [⟨1, 2, 3, 0, 0, false⟩] :=
  c8_standings_zero [5, 7] [⟨1, 2, 3, 0, 0, false⟩]
    (LeagueDB.mk [5, 7] [⟨1, 2, 3, 0, 0, false⟩]) (by decide)

/-- C4 amended: with four teams and start instant s, leg-1 matches are
dated s, s, s+7, s+7, s+14, s+14 — the three rounds fall at s, s+7 and
s+2·7, not s+3·7 — and every leg-2 match is dated exactly 3·7 days after
its own leg-1 counterpart (so the full date list continues s+21, s+21,
s+28, s+28, s+35, s+35). -/
theorem c4_fixture_dates (s : Int) :
    (generateAll [0, 1, 2, 3] s).map (fun m => m.match_date)
      = [s, s, s + 7, s + 7, s + 14, s + 14,
         s + 21, s + 21, s + 28, s + 28, s + 35, s + 35]
    ∧ ∀ (l1 : List (MatchRec Nat)) (tr : Nat),
        (leg2 l1 tr).map (fun m => m.match_date)
          = l1.map (fun m => m.match_date + 7 * (tr : Int)) := by
  constructor
  · simp only [generateAll, padSeats, leg1Rounds, roundMatches, roundPairs,
      rotateSeats, leg2]
    norm_num [List.range_succ]
    simp only [List.filterMap_cons, List.filterMap_nil, Function.comp,
      List.map_cons, List.map_nil, List.cons_append, List.nil_append,
      List.cons.injEq, and_true, true_and]
    omega
  · intro l1 tr
    simp [leg2]


/-- Closed form of the phase-1 loop: round r of leg 1 is produced from
the seat list rotated r times, dated 7r days after the start. -/
theorem leg1Rounds_getD {α : Type} :
    ∀ (n r : Nat) (seats : List (Option α)) (d : Int), r < n →
      (leg1Rounds seats d n).getD r []
        = roundMatches (rotateSeats^[r] seats) (d + 7 * (r : Int))
  | 0, r, _, _, hr => absurd hr (Nat.not_lt_zero r)
  | n + 1, 0, seats, d, _ => by
    simp [leg1Rounds]
  | n + 1, r + 1, seats, d, hr => by
    have h7 : d + 7 * ((r + 1 : Nat) : Int) = (d + 7) + 7 * (r : Int) := by
      push_cast
      ring
    rw [leg1Rounds, List.getD_cons_succ, h7, Function.iterate_succ_apply]
    exact leg1Rounds_getD n r (rotateSeats seats) (d + 7)
      (Nat.lt_of_succ_lt_succ hr)

/-- On a seat list of even length the pairing loop is exactly "zip the
first half with the second half": seat i against seat i + N'/2. -/
theorem roundPairs_eq_zip {α : Type} (seats : List (Option α))
    (h : seats.length % 2 = 0) :
    roundPairs seats = seats.zip (seats.drop (seats.length / 2)) := by
  apply List.ext_getElem
  · simp [roundPairs]
    omega
  · intro i h1 h2
    have hi : i < seats.length / 2 := by
      simpa [roundPairs] using h1
    have hi1 : i < seats.length := by omega
    have hi2 : seats.length / 2 + i < seats.length := by omega
    simp only [roundPairs, List.getElem_map, List.getElem_range,
      List.getElem_zip, List.getElem_drop]
    rw [List.getD_eq_getElem?_getD, List.getD_eq_getElem?_getD,
      List.getElem?_eq_getElem hi1, List.getElem?_eq_getElem (by omega)]
    simp [Nat.add_comm]

/-- The seat transformation of line 78 moves the last seat to position 1
and keeps the first seat fixed. -/
theorem rotateSeats_eq {β : Type} (x : β) (xs : List β) (lastSeat : β)
    (h : xs.getLast? = some lastSeat) :
    rotateSeats (x :: xs) = x :: lastSeat :: xs.dropLast := by
  rcases hrev : xs.reverse with _ | ⟨a, t⟩
  · rw [List.reverse_eq_nil_iff] at hrev
    subst hrev
    simp at h
  · have hx : xs = t.reverse ++ [a] := by
      rw [← List.reverse_reverse xs, hrev]
      simp
    have ha : a = lastSeat := by
      rw [hx, List.getLast?_concat] at h
      exact Option.some.inj h
    subst ha
    simp only [rotateSeats, hrev]
    rw [hx, List.dropLast_concat]

/-- C5 amended: in every round of leg-1 generation the pairings are seat
i with seat (i + N'/2) for i in [0, N'/2) — the first half zipped
against the second half, first-listed seat at home — not i with
(N'−1−i); round r uses the seat list rotated r times; and the rotation
moves the last seat to position 1, keeping the first seat fixed. -/
theorem c5_round_pairing {α : Type} (seats : List (Option α)) (d : Int)
    (n r : Nat) (hr : r < n) (x : Option α) (xs : List (Option α))
    (lastSeat : Option α) (hlast : xs.getLast? = some lastSeat)
    (heven : seats.length % 2 = 0) :
    (leg1Rounds seats d n).getD r []
        = roundMatches (rotateSeats^[r] seats) (d + 7 * (r : Int))
    ∧ roundPairs seats = seats.zip (seats.drop (seats.length / 2))
    ∧ rotateSeats (x :: xs) = x :: lastSeat :: xs.dropLast :=
  ⟨leg1Rounds_getD n r seats d hr, roundPairs_eq_zip seats heven,
   rotateSeats_eq x xs lastSeat hlast⟩

/-- Witness for C5 amended on the four-team seat list, round 1. -/
theorem c5_round_pairing_witness :
    ((leg1Rounds ([some 0, some 1, some 2, some 3] : List (Option Nat))
          (0 : Int) 3).getD 1 []
        = roundMatches
            (rotateSeats^[1] ([some 0, some 1, some 2, some 3] : List (Option Nat)))
            ((0 : Int) + 7 * ((1 : Nat) : Int)))
    ∧ roundPairs ([some 0, some 1, some 2, some 3] : List (Option Nat))
        = ([some 0, some 1, some 2, some 3] : List (Option Nat)).zip
            (([some 0, some 1, some 2, some 3] : List (Option Nat)).drop
              (([some 0, some 1, some 2, some 3] : List (Option Nat)).length / 2))
    ∧ rotateSeats ((some 0) :: ([some 1, some 2, some 3] : List (Option Nat)))
        = (some 0) :: (some 3) :: ([some 1, some 2, some 3] : List (Option Nat)).dropLast :=
  c5_round_pairing [some 0, some 1, some 2, some 3] 0 3 1 (by decide)
    (some 0) [some 1, some 2, some 3] (some 3) (by decide) (by decide)


/-- Behaviour of the save loop when the save function succeeds on a
prefix and then raises: the persisted records are exactly the saved
prefix, the loop stops (nothing after the failing match is attempted),
the surfaced error is the raised exception, and the last output line is
the error line built from the exception text alone. -/
theorem saveLoopAux_failure {α : Type}
    (saveFn : MatchRec α → Except String Unit) (total : Nat) (e : String) :
    ∀ (pre : List (MatchRec α)) (m : MatchRec α) (post : List (MatchRec α))
      (c : Nat), (∀ x ∈ pre, saveFn x = Except.ok ()) →
      saveFn m = Except.error e →
      (saveLoopAux saveFn total (pre ++ m :: post) c).1 = pre.map matchSave
      ∧ (saveLoopAux saveFn total (pre ++ m :: post) c).2.2 = some e
      ∧ (saveLoopAux saveFn total (pre ++ m :: post) c).2.1.getLast?
          = some (errorLine e)
  | [], m, post, c, _, hm => by
    simp [saveLoopAux, hm]
  | x :: pre, m, post, c, hpre, hm => by
    have hx : saveFn x = Except.ok () := hpre x (List.mem_cons_self x pre)
    have ih := saveLoopAux_failure saveFn total e pre m post (c + 1)
      (fun y hy => hpre y (List.mem_cons_of_mem x hy)) hm
    simp only [List.cons_append, saveLoopAux, hx]
    refine ⟨by simp [ih.1], ih.2.1, ?_⟩
    simp [List.getLast?_append, ih.2.2, Option.or]

/-- C10 amended: if a save raises partway through the persistence loop,
the remaining saves are never attempted, the records saved before the
failure remain exactly as committed (no rollback, no retry), and the
failure is reported by surfacing the underlying exception — the failure
report does not include the count of matches saved before it. -/
theorem c10_partial_save {α : Type}
    (saveFn : MatchRec α → Except String Unit) (pre post : List (MatchRec α))
    (m : MatchRec α) (e : String)
    (hpre : ∀ x ∈ pre, saveFn x = Except.ok ())
    (hm : saveFn m = Except.error e) :
    (saveLoop saveFn (pre ++ m :: post)).1 = pre.map matchSave
    ∧ (saveLoop saveFn (pre ++ m :: post)).2.2 = some e
    ∧ (saveLoop saveFn (pre ++ m :: post)).2.1.getLast?
        = some (errorLine e) :=
  saveLoopAux_failure saveFn (pre ++ m :: post).length e pre m post 0 hpre hm

/-- Witness for C10 amended: one successful save, then a raising save,
then one never-attempted match. -/
theorem c10_partial_save_witness :
    (saveLoop
        (fun x => if x.home_team == 99 then Except.error "boom" else Except.ok ())
        ([⟨1, 2, 0, 0, 0, false⟩] ++ (⟨99, 1, 0, 0, 0, false⟩ : MatchRec Nat)
          :: [⟨2, 1, 0, 0, 0, false⟩])).1
      = ([⟨1, 2, 0, 0, 0, false⟩] : List (MatchRec Nat)).map matchSave
    ∧ (saveLoop
        (fun x => if x.home_team == 99 then Except.error "boom" else Except.ok ())
        ([⟨1, 2, 0, 0, 0, false⟩] ++ (⟨99, 1, 0, 0, 0, false⟩ : MatchRec Nat)
          :: [⟨2, 1, 0, 0, 0, false⟩])).2.2 = some "boom"
    ∧ (saveLoop
        (fun x => if x.home_team == 99 then Except.error "boom" else Except.ok ())
        ([⟨1, 2, 0, 0, 0, false⟩] ++ (⟨99, 1, 0, 0, 0, false⟩ : MatchRec Nat)
          :: [⟨2, 1, 0, 0, 0, false⟩])).2.1.getLast? = some (errorLine "boom") :=
  c10_partial_save
    (fun x => if x.home_team == 99 then Except.error "boom" else Except.ok ())
    [⟨1, 2, 0, 0, 0, false⟩] [⟨2, 1, 0, 0, 0, false⟩] ⟨99, 1, 0, 0, 0, false⟩
    "boom" (by intro x hx; rw [List.mem_singleton] at hx; subst hx; rfl) rfl

end MeruCounty
